import Mathlib

/-!
Shallow embedding of the core-banking ledger engine
(`src/models/account.py`, `src/models/transaction.py`,
`src/models/bulk_transaction.py`, `src/models/loan.py`).

Monetary fields (Odoo `fields.Monetary` / Python floats) are embedded as `ℚ`.
A Python `raise` aborts the surrounding database transaction, so the store is
left unchanged; we embed fallible operations as `Except Err`, where an
`.error` result carries no new store (the caller keeps the old one).
The record store (Odoo tables keyed by id) is embedded as a total map
`ℕ → Account`; text fields (name, reference, description) and audit stamps
(dates, user ids) carry no monetary content and are omitted.
-/

namespace CBS

/-- Account lifecycle states (`account.py`, `state` selection). -/
inductive AccountState
  | draft
  | active
  | dormant
  | restricted
  | closed
deriving DecidableEq

/-- Model `core_banking.account` (`account.py`): the fields the ledger operations
read or write. -/
structure Account where
  balance : ℚ
  hold_amount : ℚ
  allow_overdraft : Bool
  overdraft_limit : ℚ
  state : AccountState
deriving DecidableEq

/-- Compute `Account._compute_available_balance` (`account.py` lines 90-96). -/
def available_balance (a : Account) : ℚ :=
  if a.allow_overdraft then
    a.balance + a.overdraft_limit - a.hold_amount
  else
    max 0 (a.balance - a.hold_amount)

/-- The account table: a total map from record id to account. -/
abbrev Accounts := ℕ → Account

/-- Point update of the account table (an ORM write to one record). -/
def updAcct (m : Accounts) (i : ℕ) (a : Account) : Accounts :=
  fun j => if j = i then a else m j

/-- Error taxonomy: each constructor corresponds to one `raise` site (or
database constraint) in the source. -/
inductive Err
  | invalidAmount
  | insufficientFunds
  | invalidState
  | amountZero
  | attributeMissing
  | missingPrereq
  | scheduleExists
deriving DecidableEq

/-- Transaction type selection (`transaction.py`). -/
inductive TxType
  | deposit
  | withdrawal
  | transfer
  | fee
  | interest
  | payment
  | refund
  | reversal
  | adjustment
  | other
deriving DecidableEq

/-- Transaction state selection (`transaction.py`). -/
inductive TxState
  | draft
  | pending
  | posted
  | reconciled
  | reversed
  | cancelled
deriving DecidableEq

/-- Model `core_banking.transaction` (`transaction.py`): the fields the posting and
reversal logic reads or writes. -/
structure Transaction where
  transaction_type : TxType
  account_id : ℕ
  destination_account_id : Option ℕ
  amount : ℚ
  state : TxState
  reversed_entry_id : Option ℕ := none
  reversal_id : Option ℕ := none
deriving DecidableEq

/-- The database constraint `CHECK(amount != 0)` on transaction creation
(`transaction.py`, `_sql_constraints`). -/
def create_transaction (t : Transaction) : Except Err Transaction :=
  if t.amount = 0 then .error .amountZero else .ok t

/-- Method `Transaction.action_post` (`transaction.py` lines 118-146) for a single
record.  A record whose state is not `draft`/`pending` is filtered out and
the call is a no-op on it. -/
def action_post (m : Accounts) (t : Transaction) :
    Except Err (Accounts × Transaction) :=
  if t.state = TxState.draft ∨ t.state = TxState.pending then
    if t.amount < 0 ∧ available_balance (m t.account_id) < |t.amount| then
      .error .insufficientFunds
    else
      let src := m t.account_id
      let m1 := updAcct m t.account_id { src with balance := src.balance + t.amount }
      let m2 :=
        if t.transaction_type = TxType.transfer then
          match t.destination_account_id with
          | some d =>
            let dst := m1 d
            updAcct m1 d { dst with balance := dst.balance + |t.amount| }
          | none => m1
        else m1
      .ok (m2, { t with state := TxState.posted })
  else
    .ok (m, t)

/-- Method `Transaction.action_reverse` (`transaction.py` lines 148-179) for a single
record.  `tid` is the id of the original record (stored in the field
`reversed_entry_id` of the reversal); `rid` is the id allocated to the created reversal.
Note the reversal is created with `state` already `posted` before
`action_post` is invoked on it. -/
def action_reverse (m : Accounts) (t : Transaction) (tid rid : ℕ) :
    Except Err (Accounts × Transaction × Option Transaction) :=
  if t.state = TxState.posted ∧ t.reversal_id = none then
    let reversal : Transaction :=
      { transaction_type := TxType.reversal
        account_id := t.account_id
        destination_account_id := t.destination_account_id
        amount := -t.amount
        state := TxState.posted
        reversed_entry_id := some tid
        reversal_id := none }
    match create_transaction reversal with
    | .error e => .error e
    | .ok r =>
      match action_post m r with
      | .error e => .error e
      | .ok (m1, r1) =>
        .ok (m1, { t with state := TxState.reversed, reversal_id := some rid }, some r1)
  else
    .ok (m, t, none)

/-- Method `Account.deposit` (`account.py` lines 127-148). -/
def deposit (m : Accounts) (i : ℕ) (amount : ℚ) :
    Except Err (Accounts × Transaction) :=
  if amount ≤ 0 then .error .invalidAmount
  else
    let t : Transaction :=
      { transaction_type := TxType.deposit
        account_id := i
        destination_account_id := none
        amount := amount
        state := TxState.posted }
    let a := m i
    .ok (updAcct m i { a with balance := a.balance + amount }, t)

/-- Method `Account.withdraw` (`account.py` lines 150-175). -/
def withdraw (m : Accounts) (i : ℕ) (amount : ℚ) :
    Except Err (Accounts × Transaction) :=
  if amount ≤ 0 then .error .invalidAmount
  else if available_balance (m i) < amount then .error .insufficientFunds
  else
    let t : Transaction :=
      { transaction_type := TxType.withdrawal
        account_id := i
        destination_account_id := none
        amount := -amount
        state := TxState.posted }
    let a := m i
    .ok (updAcct m i { a with balance := a.balance - amount }, t)

/-! Bulk transaction processing (`bulk_transaction.py`). -/

/-- Bulk batch kind selection (`bulk_transaction.py`). -/
inductive BulkType
  | bulk_transfer
  | salary_payment
  | bulk_deposit
  | bulk_withdrawal
deriving DecidableEq

/-- Bulk batch states (`bulk_transaction.py`). -/
inductive BatchState
  | draft
  | validated
  | processing
  | completed
  | failed
  | cancelled
deriving DecidableEq

/-- Bulk line states (`bulk_transaction.py`, `BulkTransactionLine`). -/
inductive LineState
  | pending
  | processed
  | failed
deriving DecidableEq

/-- Model `core_banking.bulk.transaction.line`: the fields batch processing reads
or writes. -/
structure BulkLine where
  account_id : ℕ
  destination_account_id : Option ℕ
  amount : ℚ
  state : LineState
  error_message : Option Err := none
deriving DecidableEq

/-- Model `core_banking.bulk.transaction`: the fields batch processing reads or
writes. -/
structure BulkBatch where
  transaction_type : BulkType
  state : BatchState
  success_count : ℕ := 0
  failed_count : ℕ := 0
  processed_count : ℕ := 0
deriving DecidableEq

/-- Method `BulkTransaction._get_transaction_type` (`bulk_transaction.py`
lines 194-202). -/
def get_transaction_type : BulkType → TxType
  | .bulk_transfer => .transfer
  | .salary_payment => .deposit
  | .bulk_deposit => .deposit
  | .bulk_withdrawal => .withdrawal

/-- One iteration of the `action_process_batch` loop body
(`bulk_transaction.py` lines 156-183): build the signed transaction,
create it (subject to the `amount != 0` check) and post it. -/
def process_line (btype : BulkType) (m : Accounts) (line : BulkLine) :
    Except Err (Accounts × Transaction) :=
  let amt := if btype = BulkType.bulk_withdrawal then -line.amount else line.amount
  let t : Transaction :=
    { transaction_type := get_transaction_type btype
      account_id := line.account_id
      destination_account_id := line.destination_account_id
      amount := amt
      state := TxState.draft }
  match create_transaction t with
  | .error e => .error e
  | .ok t1 => action_post m t1

/-- The per-line outcome recorded by the batch loop: the updated line and,
when posting succeeded, the created transaction. -/
structure LineResult where
  line : BulkLine
  txn : Option Transaction
deriving DecidableEq

/-- The `for line in self.bulk_line_ids` loop of `action_process_batch`
(`bulk_transaction.py` lines 152-183): a failure on one line is caught,
recorded on that line, and processing continues; a success marks the line
`processed`.  Returns the updated store, the per-line results in order, and
the success/failure counters. -/
def process_lines (btype : BulkType) :
    Accounts → List BulkLine → Accounts × List LineResult × ℕ × ℕ
  | m, [] => (m, [], 0, 0)
  | m, line :: rest =>
    match process_line btype m line with
    | .ok (m1, t) =>
      let r := process_lines btype m1 rest
      (r.1, { line := { line with state := LineState.processed }, txn := some t } :: r.2.1,
        r.2.2.1 + 1, r.2.2.2)
    | .error e =>
      let r := process_lines btype m rest
      (r.1, { line := { line with state := LineState.failed, error_message := some e },
              txn := none } :: r.2.1,
        r.2.2.1, r.2.2.2 + 1)

/-- Method `BulkTransaction.action_process_batch` (`bulk_transaction.py`
lines 139-192). -/
def action_process_batch (b : BulkBatch) (m : Accounts) (lines : List BulkLine) :
    Except Err (Accounts × List LineResult × BulkBatch) :=
  if b.state ≠ BatchState.validated then .error .invalidState
  else
    let r := process_lines b.transaction_type m lines
    .ok (r.1, r.2.1,
      { b with
        success_count := r.2.2.1
        failed_count := r.2.2.2
        processed_count := r.2.2.1 + r.2.2.2
        state := if r.2.2.2 = 0 then BatchState.completed else BatchState.failed })

/-! Loan EMI and payment schedule (`loan.py`). -/

/-- Loan payment frequency selection (`loan.py`). -/
inductive PayFreq
  | monthly
  | quarterly
  | semi_annual
  | annual
deriving DecidableEq

/-- The `frequency_months` table of `generate_payment_schedule`
(`loan.py` lines 152-157). -/
def frequency_months : PayFreq → ℕ
  | .monthly => 1
  | .quarterly => 3
  | .semi_annual => 6
  | .annual => 12

/-- Compute `Loan._compute_emi_amount` (`loan.py` lines 82-97).  The outer guard is
Python truthiness: it takes the formula branch only when principal, rate and
term are all nonzero, otherwise it stores `0.0`. -/
def compute_emi_amount (principal rate : ℚ) (term_months : ℕ) : ℚ :=
  if principal ≠ 0 ∧ rate ≠ 0 ∧ term_months ≠ 0 then
    let r := rate / 100 / 12
    if 0 < r then
      principal * r * (1 + r) ^ term_months / ((1 + r) ^ term_months - 1)
    else
      principal / (term_months : ℚ)
  else 0

/-- One generated `core_banking.loan.payment` row: the fields the schedule
loop computes (due dates and audit fields are omitted; no claim reads them). -/
structure PayRow where
  payment_number : ℕ
  principal_amount : ℚ
  interest_amount : ℚ
deriving DecidableEq

/-- The `for i in range(1, payment_count + 1)` loop of
`generate_payment_schedule` (`loan.py` lines 166-191), with the loop
variables `payment_amount` and `outstanding_principal` threaded through and
the early `break` once the outstanding principal reaches zero. -/
def schedule_rows (r : ℚ) (f : ℕ) : ℕ → ℕ → ℚ → ℚ → List PayRow
  | 0, _, _, _ => []
  | fuel + 1, i, pay, out =>
    let interest := out * r * (f : ℚ)
    let prin0 := pay - interest
    let prin := if out < prin0 then out else prin0
    let pay1 := if out < prin0 then prin + interest else pay
    let row : PayRow :=
      { payment_number := i, principal_amount := prin, interest_amount := interest }
    let out1 := out - prin
    if out1 ≤ 0 then [row] else row :: schedule_rows r f fuel (i + 1) pay1 out1

/-- Method `Loan.generate_payment_schedule` (`loan.py` lines 141-194).
`existing_rows` mirrors the `if self.payment_ids` guard; the disbursement
date is assumed present (it carries no monetary content).  The stored
`emi_amount` is the computed field `_compute_emi_amount`. -/
def generate_payment_schedule (existing_rows : Bool) (principal rate : ℚ)
    (term_months : ℕ) (freq : PayFreq) : Except Err (List PayRow) :=
  if existing_rows then .error .scheduleExists
  else
    let emi := compute_emi_amount principal rate term_months
    if term_months = 0 ∨ emi = 0 then .error .missingPrereq
    else
      let f := frequency_months freq
      let count := term_months / f
      let pay := if freq = PayFreq.monthly then emi else emi * (f : ℚ)
      .ok (schedule_rows (rate / 100 / 12) f count 1 pay principal)

/-! Dates and standing orders (`account.py`, `StandingOrder`). -/

/-- A proleptic Gregorian calendar date (Python `datetime.date`). -/
structure Date where
  year : ℕ
  month : ℕ
  day : ℕ
deriving DecidableEq

/-- Gregorian leap year rule. -/
def isLeap (y : ℕ) : Bool :=
  (y % 4 == 0 && y % 100 != 0) || y % 400 == 0

/-- Days in a Gregorian month. -/
def daysInMonth (y m : ℕ) : ℕ :=
  if m = 2 then (if isLeap y then 29 else 28)
  else if m = 4 ∨ m = 6 ∨ m = 9 ∨ m = 11 then 30
  else 31

/-- The successor date (one calendar day later). -/
def nextDay (d : Date) : Date :=
  if d.day < daysInMonth d.year d.month then
    { d with day := d.day + 1 }
  else if d.month < 12 then
    { year := d.year, month := d.month + 1, day := 1 }
  else
    { year := d.year + 1, month := 1, day := 1 }

/-- Python `date + timedelta(days = n)`. -/
def addDays (d : Date) : ℕ → Date
  | 0 => d
  | n + 1 => addDays (nextDay d) n

/-- Calendar-correct month addition: `dateutil.relativedelta(months = k)`
semantics (used by `loan.py` for due dates), and the month/quarter/year
addition the specification describes for standing-order re-arming: the
month index advances and the day is clamped to the length of the target
month. -/
def addMonths (d : Date) (k : ℕ) : Date :=
  let t := d.month - 1 + k
  let y := d.year + t / 12
  let m := t % 12 + 1
  { year := y, month := m, day := min d.day (daysInMonth y m) }

/-- Standing order frequency selection (`account.py`, `StandingOrder`). -/
inductive SOFrequency
  | daily
  | weekly
  | monthly
  | quarterly
  | yearly
deriving DecidableEq

/-- Standing order states (`account.py`, `StandingOrder`). -/
inductive SOState
  | draft
  | active
  | expired
  | cancelled
deriving DecidableEq

/-- Model `core_banking.standing.order` (`account.py` lines 201-242): the fields
the cron and re-arming logic read or write. -/
structure StandingOrder where
  source_account_id : ℕ
  destination_account_id : ℕ
  amount : ℚ
  frequency : SOFrequency
  next_execution_date : Date
  end_date : Option Date
  state : SOState
deriving DecidableEq

/-- The fixed day-count table of `StandingOrder._schedule_next_execution`
(`account.py` lines 283-289), including the `.get(..., 30)` default. -/
def frequency_delta (f : SOFrequency) : ℕ :=
  match f with
  | .daily => 1
  | .weekly => 7
  | .monthly => 30
  | .quarterly => 90
  | .yearly => 365

/-- Method `StandingOrder._schedule_next_execution` (`account.py` lines 277-291):
the next execution date advances by a fixed number of days. -/
def schedule_next_execution (o : StandingOrder) : StandingOrder :=
  { o with next_execution_date := addDays o.next_execution_date (frequency_delta o.frequency) }

/-- Date comparison (`next_execution_date <= today`, `end_date >= today`). -/
def dateLe (a b : Date) : Bool :=
  a.year < b.year ||
    (a.year == b.year &&
      (a.month < b.month || (a.month == b.month && a.day ≤ b.day)))

/-- The search domain of `_cron_process_standing_orders`
(`account.py` lines 252-259): active, due, and not past the end date. -/
def order_is_due (today : Date) (o : StandingOrder) : Bool :=
  decide (o.state = SOState.active) && dateLe o.next_execution_date today &&
    (match o.end_date with
     | none => true
     | some e => dateLe today e)

/-- The body of the cron loop attempts `order.account_id.withdraw(...)`
(`account.py` line 264), but the `core_banking.standing.order` model defines
no `account_id` field (its fields are `source_account_id` and
`destination_account_id`), so the attribute access raises before any
withdrawal is attempted; the surrounding `except` catches it. -/
def execute_standing_order (_m : Accounts) (_o : StandingOrder) :
    Except Err (Accounts × Transaction) :=
  .error .attributeMissing

/-- The `for order in due_orders` loop of `_cron_process_standing_orders`
(`account.py` lines 261-275): on success the order is re-armed via
`_schedule_next_execution`; on any exception the error is logged and the
loop continues with the order unchanged. -/
def cron_run : Accounts → List StandingOrder → Accounts × List StandingOrder
  | m, [] => (m, [])
  | m, o :: rest =>
    match execute_standing_order m o with
    | .ok (m1, _) =>
      let r := cron_run m1 rest
      (r.1, schedule_next_execution o :: r.2)
    | .error _ =>
      let r := cron_run m rest
      (r.1, o :: r.2)

/-- Method `StandingOrder._cron_process_standing_orders` (`account.py`
lines 250-275): select the due orders and run the processing loop. -/
def cron_process_standing_orders (m : Accounts) (orders : List StandingOrder)
    (today : Date) : Accounts × List StandingOrder :=
  cron_run m (orders.filter (order_is_due today))

/-! Helper lemmas. -/

theorem updAcct_same (m : Accounts) (i : ℕ) (a : Account) : updAcct m i a i = a := by
  simp [updAcct]

theorem updAcct_other (m : Accounts) (i : ℕ) (a : Account) (j : ℕ) (h : j ≠ i) :
    updAcct m i a j = m j := by
  simp [updAcct, h]

/-- Inversion of a successful `withdraw`: the checks passed and the result
is the debited store together with the created posted transaction. -/
theorem withdraw_ok_inv (m : Accounts) (i : ℕ) (amount : ℚ) (m1 : Accounts)
    (t : Transaction) (h : withdraw m i amount = .ok (m1, t)) :
    0 < amount ∧ amount ≤ available_balance (m i) ∧
      m1 = updAcct m i { m i with balance := (m i).balance - amount } ∧
      t = { transaction_type := TxType.withdrawal, account_id := i,
            destination_account_id := none, amount := -amount,
            state := TxState.posted } := by
  by_cases h1 : amount ≤ 0
  · simp [withdraw, h1] at h
  · by_cases h2 : available_balance (m i) < amount
    · simp [withdraw, h1, h2] at h
    · simp only [withdraw, if_neg h1, if_neg h2, Except.ok.injEq, Prod.mk.injEq] at h
      exact ⟨by linarith, by linarith, h.1.symm, h.2.symm⟩

/-- Shared arithmetic core of the overdraft-floor invariant: a debit of `x`
that passed the `available_balance` check cannot take the balance below the
policy floor, provided the hold amount is nonnegative. -/
theorem floor_le_debited (a : Account) (h0 : 0 ≤ a.hold_amount) (x : ℚ)
    (hx : 0 < x) (hch : x ≤ available_balance a) :
    (if a.allow_overdraft then -a.overdraft_limit else 0) ≤ a.balance - x := by
  unfold available_balance at hch
  cases hov : a.allow_overdraft with
  | true =>
    simp only [hov, if_true] at hch ⊢
    linarith
  | false =>
    simp only [hov, Bool.false_eq_true, if_false] at hch ⊢
    rcases le_or_lt (a.balance - a.hold_amount) 0 with h | h
    · rw [max_eq_left h] at hch
      linarith
    · rw [max_eq_right h.le] at hch
      linarith

/-- Inversion of a successful `action_post` on a `draft`/`pending` debit:
the balance check passed and the source balance moved by `t.amount`
(plus `|t.amount|` more when the transaction is a self-transfer). -/
theorem action_post_ok_balance (m : Accounts) (t : Transaction) (m1 : Accounts)
    (t1 : Transaction) (hstate : t.state = TxState.draft ∨ t.state = TxState.pending)
    (h : action_post m t = .ok (m1, t1)) :
    (t.amount < 0 → |t.amount| ≤ available_balance (m t.account_id)) ∧
      ((m1 t.account_id).balance = (m t.account_id).balance + t.amount ∨
        (m1 t.account_id).balance =
          (m t.account_id).balance + t.amount + |t.amount|) := by
  by_cases hfail : t.amount < 0 ∧ available_balance (m t.account_id) < |t.amount|
  · simp [action_post, if_pos hstate, hfail] at h
  · simp only [action_post, if_pos hstate, if_neg hfail, Except.ok.injEq,
      Prod.mk.injEq] at h
    obtain ⟨hm1, -⟩ := h
    constructor
    · intro hneg
      by_contra hgt
      exact hfail ⟨hneg, lt_of_not_le hgt⟩
    · rw [← hm1]
      by_cases htr : t.transaction_type = TxType.transfer
      · simp only [if_pos htr]
        cases hdest : t.destination_account_id with
        | none => simp [updAcct]
        | some d =>
          by_cases hd : d = t.account_id
          · right
            subst hd
            simp [updAcct]
          · left
            have hd2 : ¬ (t.account_id = d) := fun hh => hd hh.symm
            simp [updAcct, hd2]
      · simp only [if_neg htr]
        simp [updAcct]

/-! Claim theorems. -/

/-- C1: posting a `draft`/`pending` transaction fails with
`InsufficientFunds` when it is a debit exceeding the available balance of
the source account (the `raise` aborts before any balance is written, so
the caller keeps the unchanged store); otherwise it succeeds, the source balance
increases by `amount`, the destination balance additionally increases by
`|amount|` when the transaction is a transfer with a destination, and the
state of the transaction becomes `posted`.  The destination, when present on a
transfer, is taken to be an account distinct from the source. -/
theorem action_post_spec (m : Accounts) (t : Transaction)
    (hstate : t.state = TxState.draft ∨ t.state = TxState.pending)
    (hsep : t.transaction_type = TxType.transfer →
      ∀ d, t.destination_account_id = some d → d ≠ t.account_id) :
    (t.amount < 0 ∧ available_balance (m t.account_id) < |t.amount| →
      action_post m t = .error Err.insufficientFunds) ∧
    (¬ (t.amount < 0 ∧ available_balance (m t.account_id) < |t.amount|) →
      ∃ m1 t1, action_post m t = .ok (m1, t1) ∧
        t1.state = TxState.posted ∧
        (m1 t.account_id).balance = (m t.account_id).balance + t.amount ∧
        (∀ d, t.transaction_type = TxType.transfer →
          t.destination_account_id = some d →
          (m1 d).balance = (m d).balance + |t.amount|)) := by
  constructor
  · intro hfail
    simp [action_post, if_pos hstate, hfail]
  · intro hok
    simp only [action_post, if_pos hstate, if_neg hok]
    refine ⟨_, _, rfl, rfl, ?_, ?_⟩
    · by_cases htr : t.transaction_type = TxType.transfer
      · simp only [if_pos htr]
        cases hdest : t.destination_account_id with
        | none => simp [updAcct]
        | some d =>
          have hd2 : ¬ (t.account_id = d) := fun hh => (hsep htr d hdest) hh.symm
          simp [updAcct, hd2]
      · simp only [if_neg htr]
        simp [updAcct]
    · intro d htr hdest
      have hd : d ≠ t.account_id := hsep htr d hdest
      simp only [if_pos htr, hdest]
      simp [updAcct, hd]

/-- C2: with a nonnegative hold amount, any single debit that passes the
available-balance check — a `withdraw`, or posting a negative-amount
transaction — leaves the resulting balance at or above the policy floor:
`0` without overdraft, `-overdraft_limit` with overdraft allowed. -/
theorem debit_respects_floor (m : Accounts) (i : ℕ)
    (h0 : 0 ≤ (m i).hold_amount) :
    (∀ amount m1 t, withdraw m i amount = .ok (m1, t) →
      (if (m i).allow_overdraft then -(m i).overdraft_limit else 0) ≤
        (m1 i).balance) ∧
    (∀ t m1 t1, t.account_id = i → t.amount < 0 →
      (t.state = TxState.draft ∨ t.state = TxState.pending) →
      action_post m t = .ok (m1, t1) →
      (if (m i).allow_overdraft then -(m i).overdraft_limit else 0) ≤
        (m1 i).balance) := by
  constructor
  · intro amount m1 t h
    obtain ⟨hpos, hch, hm1, -⟩ := withdraw_ok_inv m i amount m1 t h
    subst hm1
    rw [updAcct_same]
    exact floor_le_debited (m i) h0 amount hpos hch
  · intro t m1 t1 hacc hneg hstate h
    obtain ⟨hch, hbal⟩ := action_post_ok_balance m t m1 t1 hstate h
    have habs : |t.amount| ≤ available_balance (m t.account_id) := hch hneg
    have hpos : 0 < |t.amount| := abs_pos.mpr (ne_of_lt hneg)
    have hfloor := floor_le_debited (m t.account_id) (hacc ▸ h0) |t.amount| hpos habs
    have hamt : t.amount = -|t.amount| := by
      rw [abs_of_neg hneg]
      ring
    subst hacc
    rcases hbal with hb | hb <;> rw [hb] <;> nlinarith [abs_nonneg t.amount]

/-! Concrete stores for the concrete scenarios of the specification. -/

/-- Concrete scenario account from the specification: balance 100, no
overdraft, no hold, active. -/
def acct_bal100 : Account :=
  { balance := 100, hold_amount := 0, allow_overdraft := false,
    overdraft_limit := 0, state := AccountState.active }

/-- A store whose every record is `acct_bal100`. -/
def store_bal100 : Accounts := fun _ => acct_bal100

/-- The store after the successful scenario call `withdraw(50)`. -/
def store_bal100_after : Accounts :=
  updAcct store_bal100 0 { acct_bal100 with balance := 50 }

/-- The transaction created by the successful scenario call `withdraw(50)`. -/
def txn_wd50 : Transaction :=
  { transaction_type := TxType.withdrawal, account_id := 0,
    destination_account_id := none, amount := -50, state := TxState.posted }

/-- C3 (amended: the first clause quantifies over positive amounts; see the
counterexample for why): for every positive amount exceeding the available
balance, `withdraw` fails with `InsufficientFunds` (the `raise` leaves the
store unchanged); for every positive amount within the available balance it
succeeds, debits the balance by exactly that amount and creates a `posted`
transaction of the negated amount.  The concrete scenario: on balance 100
with no overdraft, `withdraw 150` fails with `InsufficientFunds` and
`withdraw 50` yields balance 50 and available balance 50. -/
theorem withdraw_spec (m : Accounts) (i : ℕ) (amount : ℚ) (hpos : 0 < amount) :
    (available_balance (m i) < amount →
      withdraw m i amount = .error Err.insufficientFunds) ∧
    (amount ≤ available_balance (m i) →
      ∃ m1 t, withdraw m i amount = .ok (m1, t) ∧
        (m1 i).balance = (m i).balance - amount ∧
        t.state = TxState.posted ∧ t.amount = -amount ∧
        t.transaction_type = TxType.withdrawal) ∧
    withdraw store_bal100 0 150 = .error Err.insufficientFunds ∧
    withdraw store_bal100 0 50 = .ok (store_bal100_after, txn_wd50) ∧
    (store_bal100_after 0).balance = 50 ∧
    available_balance (store_bal100_after 0) = 50 := by
  have h1 : ¬ amount ≤ 0 := not_le.mpr hpos
  refine ⟨?_, ?_, ?_, ?_, ?_, ?_⟩
  · intro h
    simp [withdraw, h1, h]
  · intro h
    have h2 : ¬ available_balance (m i) < amount := not_lt.mpr h
    simp only [withdraw, if_neg h1, if_neg h2]
    refine ⟨_, _, rfl, ?_, rfl, rfl, rfl⟩
    simp [updAcct]
  · with_unfolding_all rfl
  · with_unfolding_all rfl
  · with_unfolding_all decide
  · with_unfolding_all decide

/-- An overdraft-enabled account whose hold exceeds balance plus limit, so
its available balance is negative. -/
def acct_hold10 : Account :=
  { balance := 0, hold_amount := 10, allow_overdraft := true,
    overdraft_limit := 0, state := AccountState.active }

/-- A store whose every record is `acct_hold10`. -/
def store_hold10 : Accounts := fun _ => acct_hold10

/-- C3 counterexample: the claim quantifies over *every* amount greater than
the available balance and predicts `InsufficientFunds`.  With overdraft
allowed the available balance can be negative (here `-10`), and for the
amount `-5 > -10` the code fails at the earlier positivity check with
`InvalidAmount` (`Withdrawal amount must be positive`), not
`InsufficientFunds`. -/
theorem withdraw_negative_amount_cex :
    available_balance (store_hold10 0) = -10 ∧
    available_balance (store_hold10 0) < -5 ∧
    withdraw store_hold10 0 (-5) = .error Err.invalidAmount ∧
    Err.invalidAmount ≠ Err.insufficientFunds := by
  refine ⟨?_, ?_, ?_, by decide⟩
  · with_unfolding_all decide
  · with_unfolding_all decide
  · with_unfolding_all rfl

/-- Overwrite only the `state` field of record `i`. -/
def set_state (m : Accounts) (i : ℕ) (s : AccountState) : Accounts :=
  updAcct m i { m i with state := s }

/-- C5 (amended): `deposit` and `withdraw` perform no account-state check at
all.  Whatever state the account is in — draft, dormant, restricted or
closed included — a positive-amount deposit succeeds and credits the
balance, and the only errors either operation can return are
`InvalidAmount` and (for `withdraw`) `InsufficientFunds`; `InvalidState` is
never raised. -/
theorem deposit_withdraw_ignore_state (m : Accounts) (i : ℕ) (s : AccountState)
    (amount : ℚ) (hpos : 0 < amount) :
    (∃ m1 t, deposit (set_state m i s) i amount = .ok (m1, t) ∧
      (m1 i).balance = (m i).balance + amount ∧ (m1 i).state = s ∧
      t.state = TxState.posted) ∧
    (∀ e, deposit (set_state m i s) i amount = .error e → e = Err.invalidAmount) ∧
    (∀ e, withdraw (set_state m i s) i amount = .error e →
      e = Err.invalidAmount ∨ e = Err.insufficientFunds) := by
  have h1 : ¬ amount ≤ 0 := not_le.mpr hpos
  refine ⟨?_, ?_, ?_⟩
  · simp only [deposit, if_neg h1]
    refine ⟨_, _, rfl, ?_, ?_, rfl⟩
    · simp [set_state, updAcct]
    · simp [set_state, updAcct]
  · intro e h
    simp [deposit, h1] at h
  · intro e h
    by_cases h2 : available_balance (set_state m i s i) < amount
    · simp [withdraw, h1, h2] at h
      simp [h]
    · simp [withdraw, h1, h2] at h

/-- An account in `draft` state (never activated). -/
def acct_draft : Account :=
  { balance := 0, hold_amount := 0, allow_overdraft := false,
    overdraft_limit := 0, state := AccountState.draft }

/-- A store whose every record is `acct_draft`. -/
def store_draft : Accounts := fun _ => acct_draft

/-- The store after depositing 50 into the draft account. -/
def store_draft_after : Accounts :=
  updAcct store_draft 0 { acct_draft with balance := 50 }

/-- The transaction created by that deposit. -/
def txn_dep50 : Transaction :=
  { transaction_type := TxType.deposit, account_id := 0,
    destination_account_id := none, amount := 50, state := TxState.posted }

/-- C5 counterexample: the claim says a deposit on a non-active (here
`draft`) account fails with `InvalidState` and leaves the balance
unchanged.  In the code `Account.deposit` never reads `state`: the deposit
succeeds and the balance moves from 0 to 50. -/
theorem deposit_ignores_state_cex :
    (store_draft 0).state = AccountState.draft ∧
    deposit store_draft 0 50 = .ok (store_draft_after, txn_dep50) ∧
    (store_draft_after 0).balance = 50 ∧
    (store_draft 0).balance = 0 := by
  refine ⟨by decide, ?_, ?_, by decide⟩
  · with_unfolding_all rfl
  · with_unfolding_all decide

/-- A successful `action_post` of a `draft`/`pending` transaction always
leaves the returned transaction in state `posted`. -/
theorem action_post_ok_state (m : Accounts) (t : Transaction) (m1 : Accounts)
    (t1 : Transaction) (hstate : t.state = TxState.draft ∨ t.state = TxState.pending)
    (h : action_post m t = .ok (m1, t1)) : t1.state = TxState.posted := by
  by_cases hfail : t.amount < 0 ∧ available_balance (m t.account_id) < |t.amount|
  · simp [action_post, if_pos hstate, hfail] at h
  · simp only [action_post, if_pos hstate, if_neg hfail, Except.ok.injEq,
      Prod.mk.injEq] at h
    rw [← h.2]

/-- A successful batch-line processing always returns a `posted`
transaction (the transaction of the line is created in `draft` state and then
posted). -/
theorem process_line_ok_state (btype : BulkType) (m : Accounts) (line : BulkLine)
    (m1 : Accounts) (t1 : Transaction)
    (h : process_line btype m line = .ok (m1, t1)) : t1.state = TxState.posted := by
  by_cases hz : (if btype = BulkType.bulk_withdrawal then -line.amount else line.amount) = 0
  · simp [process_line, create_transaction, hz] at h
  · simp only [process_line, create_transaction, if_neg hz] at h
    exact action_post_ok_state _ _ _ _ (Or.inl rfl) h

/-- Structure of the batch-processing loop: every input line yields exactly
one result, marked `processed` (with its posted transaction) or `failed`
(with its error recorded), the counters count exactly those markings, and
they sum to the number of lines. -/
theorem process_lines_spec (btype : BulkType) (lines : List BulkLine) :
    ∀ m : Accounts,
      (process_lines btype m lines).2.1.length = lines.length ∧
      (process_lines btype m lines).2.2.1 + (process_lines btype m lines).2.2.2 =
        lines.length ∧
      (process_lines btype m lines).2.2.1 =
        (process_lines btype m lines).2.1.countP
          (fun x => decide (x.line.state = LineState.processed)) ∧
      (process_lines btype m lines).2.2.2 =
        (process_lines btype m lines).2.1.countP
          (fun x => decide (x.line.state = LineState.failed)) ∧
      ∀ x ∈ (process_lines btype m lines).2.1,
        (x.line.state = LineState.processed ∧
          ∃ t, x.txn = some t ∧ t.state = TxState.posted) ∨
        (x.line.state = LineState.failed ∧ x.txn = none ∧
          x.line.error_message ≠ none) := by
  induction lines with
  | nil =>
    intro m
    simp [process_lines]
  | cons line rest ih =>
    intro m
    cases hpl : process_line btype m line with
    | ok p =>
      obtain ⟨m1, t⟩ := p
      obtain ⟨ih1, ih2, ih3, ih4, ih5⟩ := ih m1
      simp only [process_lines, hpl, List.length_cons, List.countP_cons,
        List.mem_cons]
      refine ⟨by rw [ih1], by omega, ?_, ?_, ?_⟩
      · simp only [decide_eq_true_eq]
        rw [ih3]
        simp
      · simp only [decide_eq_true_eq]
        rw [ih4]
        simp
      · rintro x (rfl | hx)
        · exact Or.inl ⟨rfl, t, rfl, process_line_ok_state btype m line m1 t hpl⟩
        · exact ih5 x hx
    | error e =>
      obtain ⟨ih1, ih2, ih3, ih4, ih5⟩ := ih m
      simp only [process_lines, hpl, List.length_cons, List.countP_cons,
        List.mem_cons]
      refine ⟨by rw [ih1], by omega, ?_, ?_, ?_⟩
      · simp only [decide_eq_true_eq]
        rw [ih3]
        simp
      · simp only [decide_eq_true_eq]
        rw [ih4]
        simp
      · rintro x (rfl | hx)
        · exact Or.inr ⟨rfl, rfl, by simp⟩
        · exact ih5 x hx

/-- C6: processing a validated batch of N lines visits all N lines
independently: a failing line is marked `failed` with its error recorded
and processing continues; afterwards `success_count + failed_count = N`,
`processed_count = N`, every non-failing line is marked `processed` with a
posted transaction, the counters count exactly the lines so marked, and the
batch ends `completed` when `failed_count = 0` and `failed` otherwise.
A failing line contributes no store update (its `raise` is caught before
any balance was written), so previously posted lines are never rolled
back. -/
theorem process_batch_spec (b : BulkBatch) (m : Accounts) (lines : List BulkLine)
    (hv : b.state = BatchState.validated) :
    ∃ m1 rs b1, action_process_batch b m lines = .ok (m1, rs, b1) ∧
      rs.length = lines.length ∧
      b1.success_count + b1.failed_count = lines.length ∧
      b1.processed_count = lines.length ∧
      b1.success_count =
        rs.countP (fun x => decide (x.line.state = LineState.processed)) ∧
      b1.failed_count =
        rs.countP (fun x => decide (x.line.state = LineState.failed)) ∧
      (∀ x ∈ rs,
        (x.line.state = LineState.processed ∧
          ∃ t, x.txn = some t ∧ t.state = TxState.posted) ∨
        (x.line.state = LineState.failed ∧ x.txn = none ∧
          x.line.error_message ≠ none)) ∧
      b1.state = (if b1.failed_count = 0 then BatchState.completed
        else BatchState.failed) := by
  obtain ⟨h1, h2, h3, h4, h5⟩ := process_lines_spec b.transaction_type lines m
  have hguard : ¬ b.state ≠ BatchState.validated := by simp [hv]
  refine ⟨(process_lines b.transaction_type m lines).1,
      (process_lines b.transaction_type m lines).2.1,
      { b with
        success_count := (process_lines b.transaction_type m lines).2.2.1
        failed_count := (process_lines b.transaction_type m lines).2.2.2
        processed_count := (process_lines b.transaction_type m lines).2.2.1 +
          (process_lines b.transaction_type m lines).2.2.2
        state := if (process_lines b.transaction_type m lines).2.2.2 = 0 then
            BatchState.completed else BatchState.failed },
      ?_, h1, h2, h2, h3, h4, h5, rfl⟩
  simp only [action_process_batch, if_neg hguard]

/-- The cron loop never changes the store or any order: every attempted
execution fails (the loop body reads the nonexistent `account_id` field),
the failure is caught, and the loop continues. -/
theorem cron_run_id (m : Accounts) (os : List StandingOrder) :
    cron_run m os = (m, os) := by
  induction os with
  | nil => rfl
  | cons o rest ih => simp [cron_run, execute_standing_order, ih]

/-- C9 (amended): `_schedule_next_execution` advances the next execution
date by a fixed day count — +1 daily, +7 weekly, +30 monthly, +90
quarterly, +365 yearly — not by calendar-correct month arithmetic; and a
failed execution leaves the field `next_execution_date` unchanged while
the cron still processes every due order (in the source every execution
fails, because the loop body reads `order.account_id`, a field the standing
order model does not define). -/
theorem schedule_next_fixed_days :
    (∀ o : StandingOrder,
      (schedule_next_execution o).next_execution_date =
        addDays o.next_execution_date
          (match o.frequency with
            | SOFrequency.daily => 1
            | SOFrequency.weekly => 7
            | SOFrequency.monthly => 30
            | SOFrequency.quarterly => 90
            | SOFrequency.yearly => 365)) ∧
    (∀ (m : Accounts) (orders : List StandingOrder) (today : Date),
      (cron_process_standing_orders m orders today).1 = m ∧
      (cron_process_standing_orders m orders today).2 =
        orders.filter (order_is_due today)) := by
  constructor
  · rintro ⟨src, dst, amt, freq, nxt, ed, st⟩
    cases freq <;> simp only [schedule_next_execution, frequency_delta]
  · intro m orders today
    simp [cron_process_standing_orders, cron_run_id]

/-- A monthly standing order due on 2024-01-31. -/
def so_monthly : StandingOrder :=
  { source_account_id := 0, destination_account_id := 1, amount := 10,
    frequency := SOFrequency.monthly, next_execution_date := ⟨2024, 1, 31⟩,
    end_date := none, state := SOState.active }

set_option maxRecDepth 4000 in
/-- C9 counterexample: re-arming the monthly order due 2024-01-31 lands on
2024-03-01 (a fixed +30 days), whereas calendar-correct month addition
gives 2024-02-29. -/
theorem schedule_next_not_calendar_cex :
    (schedule_next_execution so_monthly).next_execution_date = ⟨2024, 3, 1⟩ ∧
    addMonths so_monthly.next_execution_date 1 = ⟨2024, 2, 29⟩ ∧
    (schedule_next_execution so_monthly).next_execution_date ≠
      addMonths so_monthly.next_execution_date 1 := by
  refine ⟨by decide, by decide, by decide⟩

/-! The reversal slip (C4, C10): the generated reversal is created with
`state` already `posted`, so the `action_post` that `action_reverse` immediately
invokes on it filters it out and never applies its monetary effect. -/

/-- A withdrawal of 40 against record 0, still in `draft`. -/
def txn_wd40 : Transaction :=
  { transaction_type := TxType.withdrawal, account_id := 0,
    destination_account_id := none, amount := -40, state := TxState.draft }

/-- The store after posting `txn_wd40` against `store_bal100`. -/
def store_after_wd40 : Accounts :=
  updAcct store_bal100 0 { acct_bal100 with balance := 60 }

/-- Transaction `txn_wd40` once posted. -/
def txn_wd40_posted : Transaction := { txn_wd40 with state := TxState.posted }

/-- Transaction `txn_wd40` after being reversed (state and forward link updated). -/
def txn_wd40_reversed : Transaction :=
  { txn_wd40 with state := TxState.reversed, reversal_id := some 1 }

/-- The reversal record `action_reverse` creates for `txn_wd40`. -/
def txn_wd40_rev : Transaction :=
  { transaction_type := TxType.reversal, account_id := 0,
    destination_account_id := none, amount := 40, state := TxState.posted,
    reversed_entry_id := some 0 }

/-- C4 evaluated at the failing input: balance 100, post a transaction of
amount −40 (balance 60), then reverse it.  The reversal is created with
the negated amount, linked back, and the original is marked `reversed` —
but the store returned by `action_reverse` is *the same* `store_after_wd40`:
the reversal was created already `posted`, so posting it is a no-op and the
balance stays 60 instead of returning to 100. -/
theorem reverse_does_not_restore_balance :
    action_post store_bal100 txn_wd40 = .ok (store_after_wd40, txn_wd40_posted) ∧
    (store_bal100 0).balance = 100 ∧
    (store_after_wd40 0).balance = 60 ∧
    action_reverse store_after_wd40 txn_wd40_posted 0 1 =
      .ok (store_after_wd40, txn_wd40_reversed, some txn_wd40_rev) ∧
    txn_wd40_rev.amount = -txn_wd40.amount ∧
    txn_wd40_rev.state = TxState.posted ∧
    txn_wd40_rev.reversed_entry_id = some 0 ∧
    txn_wd40_reversed.state = TxState.reversed ∧
    txn_wd40_reversed.reversal_id = some 1 ∧
    (store_after_wd40 0).balance ≠ (store_bal100 0).balance := by
  refine ⟨?_, ?_, ?_, ?_, ?_, by decide, by decide, by decide, by decide, ?_⟩
  · with_unfolding_all rfl
  · with_unfolding_all decide
  · with_unfolding_all decide
  · with_unfolding_all rfl
  · with_unfolding_all decide
  · with_unfolding_all decide

/-- A second concrete account: balance 0, no overdraft, active. -/
def acct_b0 : Account :=
  { balance := 0, hold_amount := 0, allow_overdraft := false,
    overdraft_limit := 0, state := AccountState.active }

/-- A two-account store: record 0 has balance 100, record 1 has balance 0. -/
def store_transfer : Accounts := fun i => if i = 0 then acct_bal100 else acct_b0

/-- A transfer of 40 from record 0 to record 1 (debit convention:
negative amount on the source), still in `draft`. -/
def txn_tr40 : Transaction :=
  { transaction_type := TxType.transfer, account_id := 0,
    destination_account_id := some 1, amount := -40, state := TxState.draft }

/-- The store after posting the transfer: source 60, destination 40. -/
def store_tr_posted : Accounts :=
  updAcct (updAcct store_transfer 0 { acct_bal100 with balance := 60 }) 1
    { acct_b0 with balance := 40 }

/-- Transaction `txn_tr40` once posted. -/
def txn_tr40_posted : Transaction := { txn_tr40 with state := TxState.posted }

/-- Transaction `txn_tr40` after being reversed. -/
def txn_tr40_reversed : Transaction :=
  { txn_tr40 with state := TxState.reversed, reversal_id := some 1 }

/-- The reversal record `action_reverse` creates for the transfer. -/
def txn_tr40_rev : Transaction :=
  { transaction_type := TxType.reversal, account_id := 0,
    destination_account_id := some 1, amount := 40, state := TxState.posted,
    reversed_entry_id := some 0 }

/-- C10 evaluated on a concrete posted transfer: the generated reversal
does carry type `reversal` (not `transfer`), and the destination balance is
indeed untouched by the reversal — but the source balance is untouched
too: the reversal is created already `posted`, so the `action_post` call
inside `action_reverse` is a no-op and no balance moves at all (the source
stays 60 rather than changing by the negated amount back to 100). -/
theorem reverse_transfer_frame :
    action_post store_transfer txn_tr40 = .ok (store_tr_posted, txn_tr40_posted) ∧
    (store_tr_posted 0).balance = 60 ∧
    (store_tr_posted 1).balance = 40 ∧
    action_reverse store_tr_posted txn_tr40_posted 0 1 =
      .ok (store_tr_posted, txn_tr40_reversed, some txn_tr40_rev) ∧
    txn_tr40_rev.transaction_type = TxType.reversal ∧
    txn_tr40_rev.transaction_type ≠ TxType.transfer ∧
    (store_tr_posted 0).balance ≠ (store_transfer 0).balance + 40 - 40 := by
  refine ⟨?_, ?_, ?_, ?_, by decide, by decide, ?_⟩
  · with_unfolding_all rfl
  · with_unfolding_all decide
  · with_unfolding_all decide
  · with_unfolding_all rfl
  · with_unfolding_all decide

/-- C7 evaluated at the failing input: at principal 1200, annual rate 0 and
term 12 months, the code stores an EMI of 0, not the zero-rate boundary
`P/n = 100`.  The outer guard `if loan.principal_amount and
loan.interest_rate and loan.term_months` treats the float `0.0` as falsy,
so the zero-rate `principal / months` branch is unreachable at rate 0. -/
theorem emi_zero_rate_bug :
    compute_emi_amount 1200 0 12 = 0 ∧
    (1200 : ℚ) / 12 = 100 ∧
    compute_emi_amount 1200 0 12 ≠ 1200 / 12 := by
  refine ⟨?_, ?_, ?_⟩
  · with_unfolding_all decide
  · with_unfolding_all decide
  · with_unfolding_all decide

/-! Amortization schedule lemmas for C8. -/

/-- The cap `principal_amount = outstanding` keeps the running outstanding
principal nonnegative at every row, for any frequency, payment amount and
rate: every prefix of the generated principal column sums to at most the
starting outstanding amount. -/
theorem schedule_rows_prefix_le (r : ℚ) (f : ℕ) :
    ∀ (fuel i : ℕ) (pay out : ℚ), 0 ≤ out → ∀ k : ℕ,
      (List.take k ((schedule_rows r f fuel i pay out).map
        PayRow.principal_amount)).sum ≤ out := by
  intro fuel
  induction fuel with
  | zero =>
    intro i pay out hout k
    simp only [schedule_rows, List.map_nil, List.take_nil, List.sum_nil]
    exact hout
  | succ n ih =>
    intro i pay out hout k
    simp only [schedule_rows]
    split_ifs with hcap hbr hbr
    · -- cap triggered, loop breaks (outstanding hits zero)
      cases k with
      | zero => simpa using hout
      | succ k2 => simp
    · -- cap triggered but break test fails: impossible, out - out = 0 ≤ 0
      exact absurd (by linarith) hbr
    · -- no cap, loop breaks
      have hle : pay - out * r * (f : ℚ) ≤ out := not_lt.mp hcap
      cases k with
      | zero => simpa using hout
      | succ k2 => simpa using hle
    · -- no cap, loop continues with outstanding out1 > 0
      have hle : pay - out * r * (f : ℚ) ≤ out := not_lt.mp hcap
      have h1 : 0 ≤ out - (pay - out * r * (f : ℚ)) := by linarith
      cases k with
      | zero => simpa using hout
      | succ k2 =>
        simp only [List.map_cons, List.take_succ_cons, List.sum_cons]
        have := ih (i + 1) pay (out - (pay - out * r * (f : ℚ))) h1 k2
        linarith

/-- Exact amortization (monthly case): if the outstanding amount `out`
amortizes to zero in exactly `mFuel` monthly installments of `A` at rate
`r` — i.e. `out · r · (1+r)^m = A · ((1+r)^m − 1)` — then the generated
principal column sums to exactly `out`: the cap never fires early and the
early exit of the loop lands exactly when the outstanding reaches zero. -/
theorem schedule_rows_amortize (r A : ℚ) (hr : 0 < r) (hA : 0 < A) :
    ∀ (mFuel i : ℕ) (out : ℚ), 1 ≤ mFuel →
      out * (r * (1 + r) ^ mFuel) = A * ((1 + r) ^ mFuel - 1) →
      ((schedule_rows r 1 mFuel i A out).map PayRow.principal_amount).sum = out := by
  intro mFuel
  induction mFuel with
  | zero => omega
  | succ n ih =>
    intro i out hm hinv
    rcases Nat.eq_zero_or_pos n with hn | hn
    · -- final installment: principal equals outstanding exactly
      subst hn
      have hout : out * (1 + r) = A := by
        have h2 : r * (out * (1 + r)) = r * A := by linear_combination hinv
        exact mul_left_cancel₀ (ne_of_gt hr) h2
      simp only [schedule_rows, Nat.cast_one]
      have hcap : ¬ (out < A - out * r * 1) := by nlinarith
      have hbr : out - (A - out * r * 1) ≤ 0 := by nlinarith
      simp only [if_neg hcap, if_pos hbr, List.map_cons, List.map_nil,
        List.sum_cons, List.sum_nil]
      nlinarith
    · -- more than one installment remains
      have hq1 : 1 < (1 + r) ^ n :=
        one_lt_pow₀ (by linarith : 1 < 1 + r) (by omega : n ≠ 0)
      have hq0 : (0 : ℚ) < r * (1 + r) ^ n := by positivity
      have hinv1 : (out * (1 + r) - A) * (r * (1 + r) ^ n) =
          A * ((1 + r) ^ n - 1) := by
        linear_combination hinv
      have hpos : 0 < out * (1 + r) - A := by
        have h3 : 0 < (out * (1 + r) - A) * (r * (1 + r) ^ n) := by
          rw [hinv1]
          have h4 : 0 < (1 + r) ^ n - 1 := by linarith
          positivity
        rcases mul_pos_iff.mp h3 with ⟨h4, -⟩ | ⟨-, h5⟩
        · exact h4
        · linarith
      simp only [schedule_rows, Nat.cast_one]
      have hcap : ¬ (out < A - out * r * 1) := by nlinarith
      have hbr : ¬ (out - (A - out * r * 1) ≤ 0) := by nlinarith
      simp only [if_neg hcap, if_neg hbr, List.map_cons, List.sum_cons]
      have hEq : out - (A - out * r * 1) = out * (1 + r) - A := by ring
      rw [hEq, ih (i + 1) (out * (1 + r) - A) hn hinv1]
      ring

/-- Inversion of a successful `generate_payment_schedule`: no rows existed,
the prerequisites held, and the rows are the output of the schedule loop. -/
theorem generate_ok_inv (ex : Bool) (P rate : ℚ) (n : ℕ) (freq : PayFreq)
    (rows : List PayRow)
    (h : generate_payment_schedule ex P rate n freq = .ok rows) :
    rows = schedule_rows (rate / 100 / 12) (frequency_months freq)
      (n / frequency_months freq) 1
      (if freq = PayFreq.monthly then compute_emi_amount P rate n
        else compute_emi_amount P rate n * (frequency_months freq : ℚ)) P := by
  by_cases hex : ex
  · simp [generate_payment_schedule, hex] at h
  · by_cases hg : n = 0 ∨ compute_emi_amount P rate n = 0
    · simp [generate_payment_schedule, hex, hg] at h
    · simp only [generate_payment_schedule, Bool.not_eq_true] at hex
      simp only [generate_payment_schedule, hex, Bool.false_eq_true, if_false,
        if_neg hg, Except.ok.injEq] at h
      exact h.symm

/-- C8 (amended): for every generated schedule, at any frequency, the
running outstanding principal `P − (prefix sum of principal_amount)` never
becomes negative; and for *monthly* frequency the principal column sums to
the original principal exactly.  (For non-monthly frequencies the sum can
fall short of the principal by far more than rounding — see the quarterly
counterexample.) -/
theorem schedule_principal_spec :
    (∀ (ex : Bool) (P rate : ℚ) (n : ℕ) (freq : PayFreq) (rows : List PayRow),
      0 ≤ P → generate_payment_schedule ex P rate n freq = .ok rows →
      ∀ k : ℕ, 0 ≤ P - (List.take k (rows.map PayRow.principal_amount)).sum) ∧
    (∀ (P rate : ℚ) (n : ℕ), 0 < P → 0 < rate → 0 < n →
      ∃ rows, generate_payment_schedule false P rate n PayFreq.monthly = .ok rows ∧
        (rows.map PayRow.principal_amount).sum = P) := by
  constructor
  · intro ex P rate n freq rows hP h k
    rw [generate_ok_inv ex P rate n freq rows h]
    have := schedule_rows_prefix_le (rate / 100 / 12) (frequency_months freq)
      (n / frequency_months freq) 1
      (if freq = PayFreq.monthly then compute_emi_amount P rate n
        else compute_emi_amount P rate n * (frequency_months freq : ℚ)) P hP k
    linarith
  · intro P rate n hP hrate hn
    have hP0 : P ≠ 0 := ne_of_gt hP
    have hrate0 : rate ≠ 0 := ne_of_gt hrate
    have hn0 : n ≠ 0 := Nat.pos_iff_ne_zero.mp hn
    have hr : 0 < rate / 100 / 12 := by positivity
    set r : ℚ := rate / 100 / 12 with hrdef
    have hq1 : 1 < (1 + r) ^ n := one_lt_pow₀ (by linarith : 1 < 1 + r) hn0
    have hqm1 : (1 + r) ^ n - 1 ≠ 0 := ne_of_gt (by linarith)
    have hcond : P ≠ 0 ∧ rate ≠ 0 ∧ n ≠ 0 := ⟨hP0, hrate0, hn0⟩
    have hemi : compute_emi_amount P rate n =
        P * r * (1 + r) ^ n / ((1 + r) ^ n - 1) := by
      simp only [compute_emi_amount, ← hrdef, if_pos hr]
      rw [if_pos hcond]
    have hA : 0 < compute_emi_amount P rate n := by
      rw [hemi]
      have h1 : 0 < (1 + r) ^ n - 1 := by linarith
      positivity
    have hguard : ¬ (n = 0 ∨ compute_emi_amount P rate n = 0) := by
      push_neg
      exact ⟨hn0, ne_of_gt hA⟩
    have hinv : P * (r * (1 + r) ^ n) =
        compute_emi_amount P rate n * ((1 + r) ^ n - 1) := by
      rw [hemi]
      field_simp
      ring
    have hmain := schedule_rows_amortize r (compute_emi_amount P rate n) hr hA
      n 1 P hn hinv
    have hok : generate_payment_schedule false P rate n PayFreq.monthly =
        .ok (schedule_rows r 1 n 1 (compute_emi_amount P rate n) P) := by
      simp only [generate_payment_schedule, Bool.false_eq_true, if_false,
        if_neg hguard, frequency_months, Nat.div_one, ← hrdef, if_true]
    exact ⟨_, hok, hmain⟩

/-- The sum of the principal column of a generated schedule (`none` when
generation failed). -/
def principal_sum (res : Except Err (List PayRow)) : Option ℚ :=
  match res with
  | .ok rows => some ((rows.map PayRow.principal_amount).sum)
  | .error _ => none

/-- C8 counterexample: principal 1200, annual rate 1200% (monthly rate 1),
term 12 months, *quarterly* frequency.  The schedule generates four rows,
but the principal column sums to 6800/91 ≈ 74.73, not 1200: each period
charges simple quarterly interest (`outstanding × monthlyRate × 3`) against
a payment of 3×EMI, which does not amortize the principal — the residual is
1200 − 6800/91 ≈ 1125, far beyond rounding tolerance (more than 1 whole
unit). -/
theorem schedule_quarterly_residual_cex :
    principal_sum (generate_payment_schedule false 1200 1200 12 PayFreq.quarterly) =
      some (6800 / 91) ∧
    (6800 / 91 : ℚ) ≠ 1200 ∧
    1 < |1200 - (6800 / 91 : ℚ)| := by
  have h_emi : compute_emi_amount 1200 1200 12 = 327680/273 := by
    norm_num [compute_emi_amount]
  have hgen : generate_payment_schedule false 1200 1200 12 PayFreq.quarterly =
      .ok (schedule_rows (1200/100/12) 3 (12/3) 1 (327680/273 * ((3:ℕ):ℚ)) 1200) := by
    simp only [generate_payment_schedule, Bool.false_eq_true, if_false, h_emi,
      frequency_months]
    rw [if_neg (show ¬ ((12:ℕ) = 0 ∨ (327680/273 : ℚ) = 0) by norm_num),
      if_neg (show ¬ (PayFreq.quarterly = PayFreq.monthly) by decide)]
  refine ⟨?_, by norm_num, ?_⟩
  · rw [hgen]
    norm_num [principal_sum, schedule_rows, show (4:ℕ) = 3+1 from rfl,
      show (3:ℕ) = 2+1 from rfl, show (2:ℕ) = 1+1 from rfl]
  · rw [show |1200 - (6800 / 91 : ℚ)| = 102400/91 by rw [abs_of_pos] <;> norm_num]
    norm_num

/-! Witnesses: each theorem with a hypothesis applied at a concrete input. -/

/-- Witness for C1 at the concrete transfer `txn_tr40` on `store_transfer`. -/
theorem action_post_spec_witness :
    (txn_tr40.state = TxState.draft ∨ txn_tr40.state = TxState.pending) ∧
    (txn_tr40.transaction_type = TxType.transfer →
      ∀ d, txn_tr40.destination_account_id = some d → d ≠ txn_tr40.account_id) ∧
    ((txn_tr40.amount < 0 ∧
        available_balance (store_transfer txn_tr40.account_id) < |txn_tr40.amount| →
      action_post store_transfer txn_tr40 = .error Err.insufficientFunds) ∧
    (¬ (txn_tr40.amount < 0 ∧
        available_balance (store_transfer txn_tr40.account_id) < |txn_tr40.amount|) →
      ∃ m1 t1, action_post store_transfer txn_tr40 = .ok (m1, t1) ∧
        t1.state = TxState.posted ∧
        (m1 txn_tr40.account_id).balance =
          (store_transfer txn_tr40.account_id).balance + txn_tr40.amount ∧
        (∀ d, txn_tr40.transaction_type = TxType.transfer →
          txn_tr40.destination_account_id = some d →
          (m1 d).balance = (store_transfer d).balance + |txn_tr40.amount|))) := by
  have hsep : txn_tr40.transaction_type = TxType.transfer →
      ∀ d, txn_tr40.destination_account_id = some d → d ≠ txn_tr40.account_id := by
    intro _ d hd
    simp only [txn_tr40, Option.some.injEq] at hd ⊢
    omega
  exact ⟨by decide, hsep, action_post_spec store_transfer txn_tr40 (by decide) hsep⟩

/-- Witness for C2 at `store_bal100`, record 0. -/
theorem debit_respects_floor_witness :
    0 ≤ (store_bal100 0).hold_amount ∧
    ((∀ amount m1 t, withdraw store_bal100 0 amount = .ok (m1, t) →
      (if (store_bal100 0).allow_overdraft then -(store_bal100 0).overdraft_limit
        else 0) ≤ (m1 0).balance) ∧
    (∀ t m1 t1, t.account_id = 0 → t.amount < 0 →
      (t.state = TxState.draft ∨ t.state = TxState.pending) →
      action_post store_bal100 t = .ok (m1, t1) →
      (if (store_bal100 0).allow_overdraft then -(store_bal100 0).overdraft_limit
        else 0) ≤ (m1 0).balance)) := by
  have h0 : 0 ≤ (store_bal100 0).hold_amount := by with_unfolding_all decide
  exact ⟨h0, debit_respects_floor store_bal100 0 h0⟩

/-- Witness for C3 at `store_bal100`, record 0, amount 50. -/
theorem withdraw_spec_witness :
    (0 : ℚ) < 50 ∧
    ((available_balance (store_bal100 0) < 50 →
      withdraw store_bal100 0 50 = .error Err.insufficientFunds) ∧
    ((50 : ℚ) ≤ available_balance (store_bal100 0) →
      ∃ m1 t, withdraw store_bal100 0 50 = .ok (m1, t) ∧
        (m1 0).balance = (store_bal100 0).balance - 50 ∧
        t.state = TxState.posted ∧ t.amount = -50 ∧
        t.transaction_type = TxType.withdrawal) ∧
    withdraw store_bal100 0 150 = .error Err.insufficientFunds ∧
    withdraw store_bal100 0 50 = .ok (store_bal100_after, txn_wd50) ∧
    (store_bal100_after 0).balance = 50 ∧
    available_balance (store_bal100_after 0) = 50) :=
  ⟨by norm_num, withdraw_spec store_bal100 0 50 (by norm_num)⟩

/-- Witness for C5 on the dormant variant of `store_draft`, amount 50. -/
theorem deposit_withdraw_ignore_state_witness :
    (0 : ℚ) < 50 ∧
    ((∃ m1 t,
      deposit (set_state store_draft 0 AccountState.dormant) 0 50 = .ok (m1, t) ∧
      (m1 0).balance = (store_draft 0).balance + 50 ∧
      (m1 0).state = AccountState.dormant ∧ t.state = TxState.posted) ∧
    (∀ e, deposit (set_state store_draft 0 AccountState.dormant) 0 50 = .error e →
      e = Err.invalidAmount) ∧
    (∀ e, withdraw (set_state store_draft 0 AccountState.dormant) 0 50 = .error e →
      e = Err.invalidAmount ∨ e = Err.insufficientFunds)) :=
  ⟨by norm_num,
    deposit_withdraw_ignore_state store_draft 0 AccountState.dormant 50 (by norm_num)⟩

/-- A validated bulk-withdrawal batch. -/
def batch_v : BulkBatch :=
  { transaction_type := BulkType.bulk_withdrawal, state := BatchState.validated }

/-- A bulk line that will post (withdraw 30 from balance 100). -/
def line_ok : BulkLine :=
  { account_id := 0, destination_account_id := none, amount := 30,
    state := LineState.pending }

/-- A bulk line that will fail (withdraw 500 from balance 100). -/
def line_bad : BulkLine :=
  { account_id := 0, destination_account_id := none, amount := 500,
    state := LineState.pending }

/-- Witness for C6 on the two-line batch `[line_ok, line_bad]`. -/
theorem process_batch_spec_witness :
    batch_v.state = BatchState.validated ∧
    (∃ m1 rs b1,
      action_process_batch batch_v store_bal100 [line_ok, line_bad] =
        .ok (m1, rs, b1) ∧
      rs.length = [line_ok, line_bad].length ∧
      b1.success_count + b1.failed_count = [line_ok, line_bad].length ∧
      b1.processed_count = [line_ok, line_bad].length ∧
      b1.success_count =
        rs.countP (fun x => decide (x.line.state = LineState.processed)) ∧
      b1.failed_count =
        rs.countP (fun x => decide (x.line.state = LineState.failed)) ∧
      (∀ x ∈ rs,
        (x.line.state = LineState.processed ∧
          ∃ t, x.txn = some t ∧ t.state = TxState.posted) ∨
        (x.line.state = LineState.failed ∧ x.txn = none ∧
          x.line.error_message ≠ none)) ∧
      b1.state = (if b1.failed_count = 0 then BatchState.completed
        else BatchState.failed)) :=
  ⟨rfl, process_batch_spec batch_v store_bal100 [line_ok, line_bad] rfl⟩

/-- Witness for the monthly clause of C8 at principal 1200, rate 12%, term 12. -/
theorem schedule_principal_spec_witness :
    (0 : ℚ) < 1200 ∧ (0 : ℚ) < 12 ∧ 0 < 12 ∧
    (∃ rows,
      generate_payment_schedule false 1200 12 12 PayFreq.monthly = .ok rows ∧
      (rows.map PayRow.principal_amount).sum = 1200) :=
  ⟨by norm_num, by norm_num, by norm_num,
    schedule_principal_spec.2 1200 12 12 (by norm_num) (by norm_num) (by norm_num)⟩

end CBS
